import Mathlib

/-!
Shallow embedding of the AgentOrchestra multi-agent workflow engine
(`src/multi_agent/graph.py`, `router.py`, `watcher.py`, `decompose.py`,
`meta_graph.py`, `schema.py`) and proofs about the specification claims.

Modelling conventions:
* JSON values decoded by `json.load` are modelled by `JValue`; JSON numbers
  are modelled as integers (no claim depends on fractional JSON numbers).
* Python dicts decoded from JSON are association lists with unique keys and
  insertion order preserved.
* Node functions model the state update each node returns; filesystem side
  effects (inbox/outbox/dashboard/TASK.md writes and prompt rendering) have
  no effect on the returned update and are not part of the state model.
* Configuration loaded from disk (the skill contract, the agent registry and
  its `defaults` section) is passed to the embedded functions as parameters.
* Wall-clock time (`time.time()`) is an explicit rational parameter `now`.
* A Python function that can raise is embedded in `Except`.
-/

namespace AgentOrchestra

/-- JSON-like values as decoded by `json.load`. -/
inductive JValue where
  | null
  | bool (b : Bool)
  | num (n : Int)
  | str (s : String)
  | arr (xs : List JValue)
  | obj (kvs : List (String × JValue))

/-- A decoded JSON object (Python dict with string keys). -/
abbrev JObj := List (String × JValue)

/-- `d.get(k)` on a Python dict (keys unique, first match). -/
def dget (kvs : JObj) (k : String) : Option JValue :=
  (kvs.find? (fun p => p.1 = k)).map (fun p => p.2)

/-- `d.get(k, dflt)` on a Python dict. -/
def dgetD (kvs : JObj) (k : String) (dflt : JValue) : JValue :=
  (dget kvs k).getD dflt

/-- `k in d` on a Python dict. -/
def dcontains (kvs : JObj) (k : String) : Bool :=
  (dget kvs k).isSome

/-- `d.setdefault(k, v)`: insert at the end iff the key is absent. -/
def dsetdefault (kvs : JObj) (k : String) (v : JValue) : JObj :=
  if dcontains kvs k then kvs else kvs ++ [(k, v)]

/-- Python `==` between a decoded JSON value and a string literal. -/
def JValue.eqStr : JValue → String → Bool
  | .str s, t => s = t
  | _, _ => false

/-- Whether a decoded JSON value is an object (`isinstance(x, dict)`). -/
def JValue.isObj : JValue → Bool
  | .obj _ => true
  | _ => false

/-- A single-quote character as a string (used in Python error messages). -/
def apos : String := String.singleton (Char.ofNat 39)

/-- Python truthiness of an optional string (`None` and `""` are falsy). -/
def strTruthy : Option String → Bool
  | none => false
  | some s => s ≠ ""

/-- Python `x or None` applied to an optional string. -/
def pyOrNone : Option String → Option String
  | some s => if s = "" then none else some s
  | none => none

/-- Python `int()` truncation (toward zero) of a rational. -/
def pyInt (q : ℚ) : Int := Int.tdiv q.num (Int.ofNat q.den)

mutual

/-- Python `repr` of a decoded JSON value (container rendering follows
CPython; string-escape handling inside `repr` is elided, which is adequate
here because the embedding only ever compares these renderings against
all-lowercase alphabetic tokens). -/
def pyRepr : JValue → String
  | .null => "None"
  | .bool true => "True"
  | .bool false => "False"
  | .num n => toString n
  | .str s => apos ++ s ++ apos
  | .arr xs => "[" ++ String.intercalate ", " (pyReprList xs) ++ "]"
  | .obj kvs => "\x7b" ++ String.intercalate ", " (pyReprObj kvs) ++ "\x7d"

/-- `repr` of each element of a JSON array. -/
def pyReprList : List JValue → List String
  | [] => []
  | v :: vs => pyRepr v :: pyReprList vs

/-- `repr` of each key-value pair of a JSON object. -/
def pyReprObj : List (String × JValue) → List String
  | [] => []
  | (k, v) :: kvs => (apos ++ k ++ apos ++ ": " ++ pyRepr v) :: pyReprObj kvs

end

/-- Python `str()` of a decoded JSON value. -/
def pyStr : JValue → String
  | .str s => s
  | v => pyRepr v

/-- The `task_id` pattern of `schema.Task` (`^[a-z0-9][a-z0-9-]{2,63}$`),
enforced by pydantic when a `Task` is constructed in `plan_node` and
`build_node`. -/
def isIdHead (c : Char) : Bool :=
  (Char.ofNat 97 ≤ c && c ≤ Char.ofNat 122) || c.isDigit

/-- A character allowed after the first position of a task id. -/
def isIdTail (c : Char) : Bool := isIdHead c || c = Char.ofNat 45

/-- Validity of a task id per the `schema.Task` pydantic validator. -/
def taskIdValid (s : String) : Bool :=
  match s.toList with
  | [] => false
  | c :: rest => isIdHead c && rest.all isIdTail
      && decide (2 ≤ rest.length) && decide (rest.length ≤ 63)

-- ── State (graph.py WorkflowState) ────────────────────────

/-- The LangGraph state (`WorkflowState` TypedDict, `total=False`).
Optional fields model possibly-absent keys; `task_id`, `requirement`,
`skill_id` and `done_criteria` are read with `state[...]`/defaults by every
node of a started run and are modelled as always present. -/
structure WorkflowState where
  task_id : String := ""
  requirement : String := ""
  skill_id : String := ""
  done_criteria : List String := []
  timeout_sec : Option Int := none
  input_payload : Option JObj := none
  current_role : Option String := none
  builder_id : Option String := none
  reviewer_id : Option String := none
  builder_explicit : Option String := none
  reviewer_explicit : Option String := none
  builder_output : Option JObj := none
  reviewer_output : Option JObj := none
  retry_count : Option Int := none
  retry_budget : Option Int := none
  started_at : Option ℚ := none
  conversation : List JObj := []
  error : Option String := none
  final_status : Option String := none

/-- A partial state update returned by a node (`none` = key absent from the
returned dict; the nodes never store an explicit `None` in a returned key). -/
structure StateUpdate where
  current_role : Option String := none
  builder_id : Option String := none
  reviewer_id : Option String := none
  builder_output : Option JObj := none
  reviewer_output : Option JObj := none
  retry_count : Option Int := none
  started_at : Option ℚ := none
  conversation : List JObj := []
  error : Option String := none
  final_status : Option String := none

/-- LangGraph merge of a node's partial update into the accumulated state:
`conversation` is declared `Annotated[list[dict], add]`, so it is merged by
list concatenation; every other field is last-write-wins. -/
def applyUpdate (s : WorkflowState) (u : StateUpdate) : WorkflowState :=
  { s with
    current_role := u.current_role <|> s.current_role
    builder_id := u.builder_id <|> s.builder_id
    reviewer_id := u.reviewer_id <|> s.reviewer_id
    builder_output := u.builder_output <|> s.builder_output
    reviewer_output := u.reviewer_output <|> s.reviewer_output
    retry_count := u.retry_count <|> s.retry_count
    started_at := u.started_at <|> s.started_at
    conversation := s.conversation ++ u.conversation
    error := u.error <|> s.error
    final_status := u.final_status <|> s.final_status }

-- ── Configuration (schema.py, router.py registry) ─────────

/-- The fields of `schema.SkillContract` read by the embedded code
(`quality_gates`, `supported_agents`, and the defaults used by `plan_node`).
Loaded from `skills/{skill_id}/contract.yaml`; passed as a parameter here. -/
structure SkillContract where
  id : String := ""
  quality_gates : List String := []
  supported_agents : List String := []
  run_sec : Int := 1800
  max_attempts : Int := 2

/-- `schema.AgentProfile` (scoring fields as rationals). -/
structure AgentProfile where
  id : String
  capabilities : List String := []
  reliability : ℚ := 9 / 10
  queue_health : ℚ := 9 / 10
  cost : ℚ := 1 / 2

/-- The `defaults` section of the agent registry, as read by
`router.get_defaults` (`defaults.get("builder")` / `defaults.get("reviewer")`). -/
structure RegistryDefaults where
  builder : Option String := none
  reviewer : Option String := none

-- ── Router (router.py) ────────────────────────────────────

/-- The sort key used by `router._eligible`
(`lambda a: (a.reliability * a.queue_health, -a.cost)`). -/
def eligKey (a : AgentProfile) : ℚ × ℚ := (a.reliability * a.queue_health, -a.cost)

/-- Lexicographic `<=` on Python 2-tuples of numbers. -/
def pairLe (x y : ℚ × ℚ) : Bool :=
  decide (x.1 < y.1) || (decide (x.1 = y.1) && decide (x.2 ≤ y.2))

/-- `candidates.sort(key=..., reverse=True)`: stable descending sort. -/
def sortByKeyDesc (l : List AgentProfile) : List AgentProfile :=
  l.mergeSort (fun a b => pairLe (eligKey b) (eligKey a))

/-- `router._eligible`: filter agents by exclusion list, contract
compatibility and required capabilities, then sort by score descending. -/
def eligible (agents : List AgentProfile) (contract : SkillContract)
    (required_capabilities : List String) (exclude : List String) :
    List AgentProfile :=
  sortByKeyDesc (agents.filter (fun a =>
    !(exclude.contains a.id)
    && (contract.supported_agents.isEmpty || contract.supported_agents.contains a.id)
    && required_capabilities.all (fun cap => a.capabilities.contains cap)))

/-- `router.resolve_builder` (the registry defaults are a parameter in place
of the `get_defaults()` file read). -/
def resolve_builder (agents : List AgentProfile) (contract : SkillContract)
    (defaults : RegistryDefaults) (explicit : Option String) :
    Except String String :=
  if strTruthy explicit then .ok (explicit.getD "")
  else if strTruthy defaults.builder then .ok (defaults.builder.getD "")
  else
    match eligible agents contract ["implementation"] [] with
    | c :: _ => .ok c.id
    | [] => .error "No agent configured for builder role"

/-- The configuration error raised by `resolve_reviewer` when the explicit
reviewer equals the builder. -/
def sameReviewerMsg (builder_id : String) : String :=
  "Reviewer cannot be the same as builder (" ++ builder_id ++
    "). Cross-model adversarial review requires different IDEs."

/-- `router.resolve_reviewer`: explicit flag > registry default > eligible
candidates excluding the builder > any other agent; must differ from the
builder on every path. -/
def resolve_reviewer (agents : List AgentProfile) (contract : SkillContract)
    (builder_id : String) (defaults : RegistryDefaults)
    (explicit : Option String) : Except String String :=
  if strTruthy explicit then
    if explicit.getD "" = builder_id then .error (sameReviewerMsg builder_id)
    else .ok (explicit.getD "")
  else if strTruthy defaults.reviewer && decide (defaults.reviewer.getD "" ≠ builder_id) then
    .ok (defaults.reviewer.getD "")
  else
    match eligible agents contract ["review"] [builder_id] with
    | c :: _ => .ok c.id
    | [] =>
      match agents.filter (fun a => a.id ≠ builder_id) with
      | o :: _ => .ok o.id
      | [] => .error ("No agent available for reviewer role (builder=" ++ builder_id ++
          "). Add at least 2 agents to agents/agents.yaml.")

-- ── Graph nodes (graph.py) ────────────────────────────────

/-- A Python exception escaping a node (the engine does not catch these). -/
inductive PyErr where
  | attributeError (msg : String)
  | validationError (msg : String)

/-- The state update returned by a successful `plan_node`. -/
def planUpdate (builder_id reviewer_id : String) (now : ℚ) : StateUpdate :=
  { current_role := some "builder"
    builder_id := some builder_id
    reviewer_id := some reviewer_id
    started_at := some now
    conversation := [[( "role", .str "orchestrator"), ( "action", .str "assigned"),
      ( "agent", .str builder_id)]] }

/-- `plan_node`: resolve roles (reusing existing assignments on retry),
construct the prompt `Task` (whose pydantic validator checks `task_id`),
write the builder inbox/TASK.md/dashboard (I/O, not modelled) and return the
update. Role-resolution failures and `Task` validation errors are raised.
`now` stands for `time.time()`. -/
def plan_node (contract : SkillContract) (agents : List AgentProfile)
    (defaults : RegistryDefaults) (now : ℚ) (s : WorkflowState) :
    Except String StateUpdate := do
  let resolved : Except String (String × String) :=
    if strTruthy s.builder_id && strTruthy s.reviewer_id then
      .ok (s.builder_id.getD "", s.reviewer_id.getD "")
    else do
      let b ← resolve_builder agents contract defaults (pyOrNone s.builder_explicit)
      let r ← resolve_reviewer agents contract b defaults (pyOrNone s.reviewer_explicit)
      .ok (b, r)
  let (builder_id, reviewer_id) ← resolved
  if taskIdValid s.task_id then
    .ok (planUpdate builder_id reviewer_id now)
  else
    .error ("task_id must match ^[a-z0-9][a-z0-9-]\x7b2,63\x7d$, got " ++ s.task_id)

/-- The `TIMEOUT` run error written by `build_node`
(`f"TIMEOUT: builder took {int(elapsed)}s (limit: {timeout}s)"`). -/
def timeoutMsg (elapsed : Int) (timeout : Int) : String :=
  "TIMEOUT: builder took " ++ toString elapsed ++ "s (limit: " ++ toString timeout ++ "s)"

/-- One quality-gate check of `build_node` over a dict `check_results`:
a gate whose result is missing (or JSON `null`, which `dict.get` also
returns as `None`) yields a "not reported" warning; a result whose
stringification is not a pass token yields a "failed" warning. -/
def gateWarning (check_results : JObj) (gate : String) : Option String :=
  match dget check_results gate with
  | none => some ("quality gate " ++ apos ++ gate ++ apos ++ " not reported")
  | some .null => some ("quality gate " ++ apos ++ gate ++ apos ++ " not reported")
  | some v =>
      if (pyStr v).toLower ∈ [ "pass", "passed", "ok", "success", "true"] then none
      else some ("quality gate " ++ apos ++ gate ++ apos ++ " failed: " ++ pyStr v)

/-- The quality-gate loop of `build_node`. `check_results.get(gate)` raises
`AttributeError` on the first iteration when `check_results` is not a dict,
so the loop is total iff the gate list is empty or `check_results` is a
dict. -/
def gateWarnings (gates : List String) (check_results : JValue) :
    Except PyErr (List String) :=
  match gates with
  | [] => .ok []
  | _ :: _ =>
      match check_results with
      | .obj crs => .ok (gates.filterMap (gateWarning crs))
      | _ => .error (.attributeError
          ("object has no attribute " ++ apos ++ "get" ++ apos))

/-- The `build_node` update on lazy-timeout detection. -/
def timeoutUpdate (elapsed : ℚ) (timeout : Int) : StateUpdate :=
  { error := some (timeoutMsg (pyInt elapsed) timeout)
    final_status := some "failed"
    conversation := [[( "role", .str "orchestrator"), ( "action", .str "timeout"),
      ( "elapsed", .num (pyInt elapsed))]] }

/-- The `build_node` update for invalid builder output
(`f"Builder output invalid: {'; '.join(errors)}"`). -/
def builderInvalidUpdate (errors : List String) : StateUpdate :=
  { error := some ("Builder output invalid: " ++ String.intercalate "; " errors)
    final_status := some "failed"
    conversation := [[( "role", .str "builder"), ( "output", .str "INVALID")]] }

/-- `build_node` resumed with external value `result`: lazy timeout check,
light-weight output validation, quality-gate warnings, then hand-off to the
reviewer. Reviewer prompt rendering and inbox/dashboard writes are I/O and
are not modelled; the prompt-side `Task` construction validates `task_id`. -/
def build_node (contract : SkillContract) (now : ℚ) (s : WorkflowState)
    (result : JValue) : Except PyErr StateUpdate :=
  let started : ℚ := s.started_at.getD 0
  let timeout : Int := s.timeout_sec.getD 1800
  if started ≠ 0 ∧ timeout ≠ 0 ∧ now - started > (timeout : ℚ) then
    .ok (timeoutUpdate (now - started) timeout)
  else
    match result with
    | .obj kvs =>
        let errors : List String :=
          (if dcontains kvs "status" then []
           else ["missing " ++ apos ++ "status" ++ apos ++ " field"]) ++
          (if dcontains kvs "summary" then []
           else ["missing " ++ apos ++ "summary" ++ apos ++ " field"])
        if errors.isEmpty then
          match gateWarnings contract.quality_gates (dgetD kvs "check_results" (.obj [])) with
          | .error e => .error e
          | .ok gw =>
              let kvs1 :=
                if gw.isEmpty then kvs
                else dsetdefault kvs "gate_warnings" (.arr (gw.map JValue.str))
              if taskIdValid s.task_id then
                .ok { builder_output := some kvs1
                      current_role := some "reviewer"
                      conversation := [[( "role", .str "builder"),
                        ( "output", dgetD kvs1 "summary" (.str ""))]] }
              else
                .error (.validationError ("task_id must match pattern, got " ++ s.task_id))
        else
          .ok (builderInvalidUpdate errors)
    | _ =>
        .ok (builderInvalidUpdate ["output must be a JSON object"])

/-- Pydantic validation of `ReviewerOutput(**result)` as used by
`review_node`: returns the parsed `decision.value` when the model validates
(`decision` defaults to `reject`; extra keys are ignored), `none` when
pydantic raises. -/
def reviewerOutputDecision (kvs : JObj) : Option String :=
  let decisionOk : Option String :=
    match dget kvs "decision" with
    | none => some "reject"
    | some (.str s) =>
        if s ∈ [ "approve", "reject", "request_changes"] then some s else none
    | some _ => none
  let strFieldOk : String → Bool := fun k =>
    match dget kvs k with
    | none => true
    | some (.str _) => true
    | some _ => false
  let issuesOk : Bool :=
    match dget kvs "issues" with
    | none => true
    | some (.arr xs) => xs.all (fun v => match v with | .str _ => true | _ => false)
    | some _ => false
  if strFieldOk "summary" && strFieldOk "feedback" && issuesOk then decisionOk
  else none

/-- `review_node` resumed with external value `result`: a non-dict result
becomes an automatic reject with a synthesized feedback message; otherwise
the raw dict is stored and the conversation entry carries the (parsed or
fallback) decision. -/
def review_node (result : JValue) : StateUpdate :=
  match result with
  | .obj kvs =>
      let decision : JValue :=
        match reviewerOutputDecision kvs with
        | some d => .str d
        | none => dgetD kvs "decision" (.str "reject")
      { reviewer_output := some kvs
        conversation := [[( "role", .str "reviewer"), ( "decision", decision)]] }
  | _ =>
      { reviewer_output := some [( "decision", .str "reject"),
          ( "feedback", .str "Invalid reviewer output")]
        conversation := [[( "role", .str "reviewer"), ( "decision", .str "reject")]] }

/-- `decide_node`: approve ⇒ terminal `approved`; otherwise increment the
retry count and either escalate (`BUDGET_EXHAUSTED`) past the budget or emit
a retry entry carrying the feedback. Dashboard/archive writes are I/O. -/
def decide_node (s : WorkflowState) : StateUpdate :=
  let reviewer_output := s.reviewer_output.getD []
  let decision := dgetD reviewer_output "decision" (.str "reject")
  if decision.eqStr "approve" then
    { final_status := some "approved"
      conversation := [[( "role", .str "orchestrator"), ( "action", .str "approved")]] }
  else
    let retry_count := s.retry_count.getD 0 + 1
    let budget := s.retry_budget.getD 2
    if retry_count > budget then
      { error := some "BUDGET_EXHAUSTED"
        retry_count := some retry_count
        final_status := some "escalated"
        conversation := [[( "role", .str "orchestrator"), ( "action", .str "escalated"),
          ( "reason", .str "budget exhausted")]] }
    else
      { retry_count := some retry_count
        conversation := [[( "role", .str "orchestrator"), ( "action", .str "retry"),
          ( "feedback", dgetD reviewer_output "feedback" (.str ""))]] }

-- ── Routing (graph.py) ────────────────────────────────────

/-- `_route_after_build`: skip review if `build_node` recorded an error or a
`failed`/`cancelled` terminal status. -/
def route_after_build (s : WorkflowState) : String :=
  if strTruthy s.error ∨ s.final_status = some "failed" ∨ s.final_status = some "cancelled"
  then "end" else "review"

/-- `route_decision`: end on error or approval, otherwise loop to `plan`. -/
def route_decision (s : WorkflowState) : String :=
  if strTruthy s.error then "end"
  else if s.final_status = some "approved" then "end"
  else "retry"

-- ── Watcher (watcher.py OutboxPoller) ─────────────────────

/-- One outbox file observed by a poll: its role (file stem), its
modification time, and its parse result (`none` models a `json.load` that
raises `JSONDecodeError`/`OSError`, e.g. a still-being-written file). -/
structure OutboxFile where
  role : String
  mtime : ℚ
  content : Option JValue

/-- `OutboxPoller._known.get(role)`. -/
def knownGet (known : List (String × ℚ)) (role : String) : Option ℚ :=
  (known.find? (fun p => p.1 = role)).map (fun p => p.2)

/-- `self._known[role] = mtime`. -/
def knownSet (known : List (String × ℚ)) (role : String) (mtime : ℚ) :
    List (String × ℚ) :=
  if (known.find? (fun p => p.1 = role)).isSome then
    known.map (fun p => if p.1 = role then (p.1, mtime) else p)
  else known ++ [(role, mtime)]

/-- `OutboxPoller.check_once` over the files returned by `_scan`, threading
the `_known` mtime map. Mirrors the source exactly: for each file whose
mtime is new or increased, the mtime is recorded in `_known` first, and only
then is the file parsed; a parse failure is swallowed (`pass`). -/
def check_once (files : List OutboxFile) (known : List (String × ℚ)) :
    List (String × JValue) × List (String × ℚ) :=
  match files with
  | [] => ([], known)
  | f :: rest =>
      let isNew :=
        match knownGet known f.role with
        | none => true
        | some m => decide (m < f.mtime)
      if isNew then
        let known1 := knownSet known f.role f.mtime
        let here : List (String × JValue) :=
          match f.content with
          | some data => [(f.role, data)]
          | none => []
        let (rs, known2) := check_once rest known1
        (here ++ rs, known2)
      else
        check_once rest known

-- ── Decomposition (decompose.py, schema.py SubTask) ───────

/-- `schema.SubTask`. -/
structure SubTask where
  id : String
  description : String := ""
  done_criteria : List String := []
  deps : List String := []
  skill_id : String := "code-implement"

/-- The accumulator threaded through `topo_sort`: the `visited` and
`visiting` sets and the `result` list (sets modelled as lists, membership
being all that matters). -/
structure TopoState where
  visited : List String := []
  visiting : List String := []
  result : List SubTask := []

/-- `by_id = {st.id: st for st in sub_tasks}` lookup (a dict comprehension
keeps the last entry for a duplicated id). -/
def byId (sub_tasks : List SubTask) (task_id : String) : Option SubTask :=
  sub_tasks.reverse.find? (fun st => st.id = task_id)

/-- The cycle error of `topo_sort`
(`f"Circular dependency detected involving '{task_id}'"`). -/
def cycleMsg (task_id : String) : String :=
  "Circular dependency detected involving " ++ apos ++ task_id ++ apos

/-- The unknown-dependency error of `topo_sort`
(`f"Unknown dependency '{task_id}'"`). -/
def unknownMsg (task_id : String) : String :=
  "Unknown dependency " ++ apos ++ task_id ++ apos

/-- The recursive `visit` of `topo_sort`. The Python recursion terminates
because every nested call adds a fresh id to `visiting`; here that depth
bound is made explicit as fuel (always sufficient when the fuel exceeds the
number of distinct ids reachable, as in `topo_sort` below). -/
def visit (sub_tasks : List SubTask) : Nat → String → TopoState →
    Except String TopoState
  | 0, _, _ => .error "recursion depth exceeded"
  | fuel + 1, task_id, st =>
      if st.visited.contains task_id then .ok st
      else if st.visiting.contains task_id then .error (cycleMsg task_id)
      else
        let st1 := { st with visiting := st.visiting ++ [task_id] }
        match byId sub_tasks task_id with
        | none => .error (unknownMsg task_id)
        | some task => do
            let st2 ← task.deps.foldlM
              (fun acc dep => visit sub_tasks fuel dep acc) st1
            .ok { st2 with
                  visiting := st2.visiting.filter (fun x => x ≠ task_id)
                  visited := st2.visited ++ [task_id]
                  result := st2.result ++ [task] }

/-- `decompose.topo_sort`: depth-first topological ordering with cycle and
unknown-dependency detection. -/
def topo_sort (sub_tasks : List SubTask) : Except String (List SubTask) := do
  let fuel := sub_tasks.length + 2
  let st ← sub_tasks.foldlM (fun acc t => visit sub_tasks fuel t.id acc)
    ({} : TopoState)
  .ok st.result

-- ── Aggregation (meta_graph.py) ───────────────────────────

/-- The fields of one sub-task result dict read by `aggregate_results`,
with `none` modelling an absent key (the `.get` defaults below are the
source's). -/
structure SubResult where
  sub_id : Option String := none
  status : Option String := none
  summary : Option String := none
  changed_files : List String := []
  retry_count : Option Int := none

/-- The rollup dict built by `aggregate_results`. -/
structure AggregateReport where
  task_id : String
  total_sub_tasks : Nat
  completed : Int
  failed : List String
  total_retries : Int
  all_changed_files : List String
  summary : String
  final_status : String

/-- Whether a sub-result counts as completed
(`status not in ("approved", "completed")` marks it failed). -/
def subResultOk (sr : SubResult) : Bool :=
  sr.status.getD "unknown" ∈ [ "approved", "completed"]

/-- Python `sorted(set(xs))` on strings: deduplicate, then sort ascending
by code-point order. -/
def pySortedSet (xs : List String) : List String :=
  (xs.dedup).mergeSort (fun a b => decide (a ≤ b))

/-- `meta_graph.aggregate_results`. -/
def aggregate_results (parent_task_id : String) (sub_results : List SubResult) :
    AggregateReport :=
  let failed := (sub_results.filter (fun sr => !(subResultOk sr))).map
    (fun sr => sr.sub_id.getD "?")
  { task_id := parent_task_id
    total_sub_tasks := sub_results.length
    completed := (sub_results.length : Int) - (failed.length : Int)
    failed := failed
    total_retries := (sub_results.map (fun sr => sr.retry_count.getD 0)).sum
    all_changed_files := pySortedSet (sub_results.flatMap (fun sr => sr.changed_files))
    summary := String.intercalate "\n" (sub_results.map
      (fun sr => "- " ++ sr.sub_id.getD "?" ++ ": " ++ sr.summary.getD ""))
    final_status := if failed.isEmpty then "approved" else "failed" }

-- ── Concrete inputs for the claims ────────────────────────

/-- A contract for the `code-implement` skill with no declared gates. -/
def c1contract : SkillContract := { id := "code-implement" }

/-- The run state of the repository test `test_cli_error_output_fails_build`
(`started_at=0`, so the lazy timeout guard is skipped). -/
def c1state : WorkflowState :=
  { task_id := "task-test-err"
    skill_id := "code-implement"
    done_criteria := [ "test"]
    builder_id := some "claude"
    reviewer_id := some "cursor"
    started_at := some 0
    timeout_sec := some 1800 }

/-- The error marker written by `driver._write_error` on CLI actor failure. -/
def c1kvs : JObj :=
  [( "status", .str "error"), ( "summary", .str "claude CLI timed out after 600s")]

/-- The builder resume value carrying the error marker. -/
def c1result : JValue := .obj c1kvs

-- ── C1 ────────────────────────────────────────────────────

/-- C1 (code bug): resuming `build_node` with the out-of-band error marker
`{"status": "error", "summary": ...}` that `driver._write_error` produces
does NOT fail the run: `build_node` only checks that `status` and `summary`
are present, so it stores the marker as `builder_output`, records no error
and no `final_status`, and `_route_after_build` proceeds to `review` — the
claim (and the repository test `test_cli_error_output_fails_build`, which
asserts `final_status == "failed"` and no `builder_output` on this very
input) requires the run to fail and route to END instead. -/
theorem claim_C1_code_bug :
    (dgetD c1kvs "status" (.str "")).eqStr "error" = true
    ∧ (build_node c1contract 100 c1state c1result).map
        (fun u => (u.builder_output.isSome, u.error, u.final_status,
          route_after_build (applyUpdate c1state u)))
      = .ok (true, none, none, "review") :=
  ⟨rfl, rfl⟩

-- ── C3 ────────────────────────────────────────────────────

/-- A builder outbox file at mtime 100 whose content does not parse
(a partial write such as `{"status": "complet`). -/
def c3fileBad : OutboxFile := { role := "builder", mtime := 100, content := none }

/-- The same file at the same mtime, now fully written and parseable. -/
def c3fileGood : OutboxFile :=
  { role := "builder", mtime := 100
    content := some (.obj [( "status", .str "completed"), ( "summary", .str "done")]) }

/-- C3 (code bug): `check_once` records the file mtime in `_known` BEFORE
attempting the parse, so a poll that sees unparseable content still marks
the input as consumed, and a later poll that sees the same file with the
same mtime but now-parseable content returns nothing — the claim (and the
repository test `test_partial_write_retries`, which asserts
`"builder" not in poller._known` after the failed parse) requires the failed
parse to leave the input unconsumed. -/
theorem claim_C3_code_bug :
    (check_once [c3fileBad] []).1 = []
    ∧ (check_once [c3fileBad] []).2 = [( "builder", (100 : ℚ))]
    ∧ (check_once [c3fileGood] (check_once [c3fileBad] []).2).1 = [] :=
  ⟨rfl, rfl, rfl⟩

-- ── C5 ────────────────────────────────────────────────────

/-- `{id: a, deps: [b]}`. -/
def stA : SubTask := { id := "a", deps := [ "b"] }

/-- `{id: b, deps: [a]}`. -/
def stB : SubTask := { id := "b", deps := [ "a"] }

/-- `{id: a, deps: [a]}` (self-loop). -/
def stSelf : SubTask := { id := "a", deps := [ "a"] }

/-- `{id: a, deps: [x]}` with `x` not an id of the input. -/
def stUnknownDep : SubTask := { id := "a", deps := [ "x"] }

/-- The diamond `{a}, {b: deps [a]}, {c: deps [a]}, {d: deps [b, c]}`. -/
def diamond : List SubTask :=
  [ { id := "a" }, { id := "b", deps := [ "a"] }, { id := "c", deps := [ "a"] },
    { id := "d", deps := [ "b", "c"] } ]

/-- C5: `topo_sort` raises a cycle error naming participating id `a` on the
two-cycle `a↔b` and on the self-loop `a→a`, raises an unknown-dependency
error naming `x` on a dependency to the absent id `x`, and on the diamond
returns the order `[a, b, c, d]` — `a` first, `d` last, and both `b` and `c`
before `d`. -/
theorem claim_C5 :
    topo_sort [stA, stB] = .error (cycleMsg "a")
    ∧ topo_sort [stSelf] = .error (cycleMsg "a")
    ∧ topo_sort [stUnknownDep] = .error (unknownMsg "x")
    ∧ (topo_sort diamond).map (fun l => l.map SubTask.id) = .ok [ "a", "b", "c", "d"] :=
  ⟨rfl, rfl, rfl, rfl⟩

-- ── C4 ────────────────────────────────────────────────────

/-- A run state with `started_at` set and `timeout_sec = 0`. -/
def c4state : WorkflowState :=
  { task_id := "task-c4-zero"
    skill_id := "code-implement"
    started_at := some 10
    timeout_sec := some 0 }

/-- A well-formed builder resume value. -/
def c4result : JValue := .obj [( "status", .str "completed"), ( "summary", .str "x")]

/-- C4 counterexample: with `started_at` set (10) and `timeout_sec = 0`, the
elapsed time at resume (9990s) exceeds `timeout_sec`, yet `build_node` does
not fail the run: the guard `if started and timeout:` treats a zero
`timeout_sec` as falsy and skips the timeout check entirely, so the node
returns no error, no `final_status`, and routing proceeds to review. -/
theorem claim_C4_counterexample :
    c4state.started_at = some 10 ∧ c4state.timeout_sec = some 0
    ∧ ((10000 : ℚ) - 10 > ((0 : Int) : ℚ))
    ∧ (build_node c1contract 10000 c4state c4result).map
        (fun u => (u.error, u.final_status, route_after_build (applyUpdate c4state u)))
      = .ok (none, none, "review") :=
  ⟨rfl, rfl, by norm_num, rfl⟩

/-- C4 (amended): for every resume of the build node where `started_at` is
set (nonzero) AND `timeout_sec` is nonzero, if the elapsed wall-clock time
since `started_at` exceeds `timeout_sec` then the run immediately fails with
a `TIMEOUT` error and `final_status = failed`, and the post-build routing
goes to END so review never executes; the check is performed inside the
resumed node itself (lazily at resume time), not by any background timer.
(The original claim omitted the nonzero-`timeout_sec` proviso: a zero
timeout disables the check, per the counterexample.) -/
theorem claim_C4 (contract : SkillContract) (now : ℚ) (s : WorkflowState)
    (result : JValue)
    (hs : s.started_at.getD 0 ≠ 0)
    (ht : s.timeout_sec.getD 1800 ≠ 0)
    (he : now - s.started_at.getD 0 > ((s.timeout_sec.getD 1800 : Int) : ℚ)) :
    ∃ u, build_node contract now s result = .ok u
      ∧ u.error = some (timeoutMsg (pyInt (now - s.started_at.getD 0))
          (s.timeout_sec.getD 1800))
      ∧ u.final_status = some "failed"
      ∧ route_after_build (applyUpdate s u) = "end" := by
  refine ⟨timeoutUpdate (now - s.started_at.getD 0) (s.timeout_sec.getD 1800),
    ?_, rfl, rfl, ?_⟩
  · simp only [build_node]
    rw [if_pos ⟨hs, ht, he⟩]
  · unfold route_after_build applyUpdate
    exact if_pos (Or.inr (Or.inl rfl))

/-- Witness for C4 at a concrete input: `started_at = 100`,
`timeout_sec = 1800`, resumed at `now = 2000` (elapsed 1900s). -/
theorem claim_C4_witness :
    ((100 : ℚ) ≠ 0) ∧ ((1800 : Int) ≠ 0) ∧ ((2000 : ℚ) - 100 > ((1800 : Int) : ℚ))
    ∧ ∃ u, build_node c1contract 2000
        { task_id := "task-c4-w", skill_id := "code-implement"
          started_at := some 100, timeout_sec := some 1800 } (.str "late") = .ok u
      ∧ u.error = some (timeoutMsg (pyInt ((2000 : ℚ) - 100)) 1800)
      ∧ u.final_status = some "failed"
      ∧ route_after_build (applyUpdate
          { task_id := "task-c4-w", skill_id := "code-implement"
            started_at := some 100, timeout_sec := some 1800 } u) = "end" :=
  ⟨by norm_num, by norm_num, by norm_num,
    claim_C4 c1contract 2000
      { task_id := "task-c4-w", skill_id := "code-implement"
        started_at := some 100, timeout_sec := some 1800 } (.str "late")
      (by norm_num) (by norm_num) (by norm_num)⟩

-- ── C6 ────────────────────────────────────────────────────

/-- A contract that declares a quality gate (repository contracts must
declare at least one; `scripts/mvp_ctl.py` rejects empty `quality_gates`). -/
def c6contract : SkillContract :=
  { id := "code-implement", quality_gates := [ "unit_test"] }

/-- A builder output dict containing both `status` and `summary`, whose
`check_results` value is a JSON number rather than an object. -/
def c6kvs : JObj :=
  [( "status", .str "completed"), ( "summary", .str "x"), ( "check_results", .num 0)]

/-- The run state for the C6 counterexample (resumed 1s after start, far
under the 1800s budget). -/
def c6state : WorkflowState :=
  { task_id := "task-c6-gate"
    skill_id := "code-implement"
    started_at := some 1
    timeout_sec := some 1800 }

/-- C6 counterexample: a resumed value that IS a dict containing both
`status` and `summary`, with no timeout elapsed, on which the graph does
NOT proceed to review: because the skill declares a quality gate and the
dict's `check_results` value is not itself a dict, the gate loop's
`check_results.get(gate)` raises `AttributeError`, so `build_node` raises
instead of returning an update and the review node is never reached. -/
theorem claim_C6_counterexample :
    dcontains c6kvs "status" = true ∧ dcontains c6kvs "summary" = true
    ∧ ¬ ((2 : ℚ) - 1 > ((1800 : Int) : ℚ))
    ∧ build_node c6contract 2 c6state (.obj c6kvs)
      = .error (.attributeError ("object has no attribute " ++ apos ++ "get" ++ apos)) := by
  refine ⟨rfl, rfl, by norm_num, ?_⟩
  have hto : ¬ (c6state.started_at.getD 0 ≠ 0 ∧ c6state.timeout_sec.getD 1800 ≠ 0 ∧
      (2 : ℚ) - c6state.started_at.getD 0 > ((c6state.timeout_sec.getD 1800 : Int) : ℚ)) := by
    intro h
    have h3 := h.2.2
    rw [show c6state.started_at.getD 0 = 1 from rfl,
      show c6state.timeout_sec.getD 1800 = 1800 from rfl] at h3
    norm_num at h3
  simp only [build_node]
  rw [if_neg hto]
  rfl

/-- If a node update carries `final_status = failed`, post-build routing
goes to END. -/
theorem route_end_of_failed (s : WorkflowState) (u : StateUpdate)
    (h : u.final_status = some "failed") :
    route_after_build (applyUpdate s u) = "end" := by
  unfold route_after_build applyUpdate
  refine if_pos (Or.inr (Or.inl ?_))
  rw [h]
  rfl

/-- C6 (amended): after a build-node resume with no timeout elapsed:
(1) if the resumed value is a dict containing both `status` and `summary`
keys AND its `check_results` value (absent keys defaulting to `{}`) is
itself a structured object, the build node stores the builder output with
no error and no `final_status`, and routing proceeds to `review`, never to
END; (2) if the resumed value is not a dict, or is a dict missing `status`
or `summary`, the build node sets `final_status = failed` with an
invalid-output error and routing goes to END, so review never executes.
(The original claim omitted the `check_results` proviso of part (1): per
the counterexample, a non-dict `check_results` under a declared quality
gate makes the node raise instead of reaching review.) -/
theorem claim_C6 :
    (∀ (contract : SkillContract) (now : ℚ) (s : WorkflowState) (kvs : JObj),
      ¬ (s.started_at.getD 0 ≠ 0 ∧ s.timeout_sec.getD 1800 ≠ 0 ∧
          now - s.started_at.getD 0 > ((s.timeout_sec.getD 1800 : Int) : ℚ)) →
      dcontains kvs "status" = true →
      dcontains kvs "summary" = true →
      (dgetD kvs "check_results" (.obj [])).isObj = true →
      taskIdValid s.task_id = true →
      ∃ u, build_node contract now s (.obj kvs) = .ok u
        ∧ u.builder_output.isSome = true
        ∧ u.error = none ∧ u.final_status = none
        ∧ (s.error = none → s.final_status = none →
            route_after_build (applyUpdate s u) = "review"))
    ∧ (∀ (contract : SkillContract) (now : ℚ) (s : WorkflowState) (result : JValue),
      ¬ (s.started_at.getD 0 ≠ 0 ∧ s.timeout_sec.getD 1800 ≠ 0 ∧
          now - s.started_at.getD 0 > ((s.timeout_sec.getD 1800 : Int) : ℚ)) →
      (result.isObj = false ∨ ∃ kvs, result = .obj kvs ∧
        (dcontains kvs "status" = false ∨ dcontains kvs "summary" = false)) →
      ∃ u, build_node contract now s result = .ok u
        ∧ u.final_status = some "failed" ∧ u.error.isSome = true
        ∧ route_after_build (applyUpdate s u) = "end") := by
  constructor
  · intro contract now s kvs hto hst hsu hcr htid
    obtain ⟨crs, hcrs⟩ : ∃ crs, dgetD kvs "check_results" (.obj []) = .obj crs := by
      revert hcr
      cases dgetD kvs "check_results" (.obj []) <;> intro hcr <;>
        first
          | exact ⟨_, rfl⟩
          | simp [JValue.isObj] at hcr
    have hgweq : ∃ gw, gateWarnings contract.quality_gates
        (dgetD kvs "check_results" (.obj [])) = .ok gw := by
      rw [hcrs]
      cases contract.quality_gates <;> exact ⟨_, rfl⟩
    obtain ⟨gw, hgweq⟩ := hgweq
    simp only [build_node]
    rw [if_neg hto]
    simp [hst, hsu, hgweq, htid]
    intro he hf
    simp [route_after_build, applyUpdate, strTruthy, he, hf]
  · intro contract now s result hto hbad
    rcases hbad with hno | ⟨kvs, rfl, hmiss⟩
    · cases result <;> simp [JValue.isObj] at hno <;>
        · simp only [build_node]
          rw [if_neg hto]
          exact ⟨_, rfl, rfl, rfl, route_end_of_failed s _ rfl⟩
    · simp only [build_node]
      rw [if_neg hto]
      rcases hmiss with h1 | h2
      · rcases Bool.eq_false_or_eq_true (dcontains kvs "summary") with h2 | h2 <;>
          · simp [h1, h2]
            exact ⟨rfl, rfl, route_end_of_failed s _ rfl⟩
      · rcases Bool.eq_false_or_eq_true (dcontains kvs "status") with h1 | h1 <;>
          · simp [h1, h2]
            exact ⟨rfl, rfl, route_end_of_failed s _ rfl⟩

/-- A run state for the C6 witness (resumed 1s after start). -/
def c6wState : WorkflowState :=
  { task_id := "task-c6-ok"
    skill_id := "code-implement"
    started_at := some 1
    timeout_sec := some 1800 }

/-- A well-formed builder output for the C6 witness. -/
def c6wKvs : JObj := [( "status", .str "completed"), ( "summary", .str "x")]

/-- The C6 witness needs the timeout guard to be false at the concrete
state resumed at `now = 2`. -/
theorem c6wNoTimeout :
    ¬ (c6wState.started_at.getD 0 ≠ 0 ∧ c6wState.timeout_sec.getD 1800 ≠ 0 ∧
        (2 : ℚ) - c6wState.started_at.getD 0 >
          ((c6wState.timeout_sec.getD 1800 : Int) : ℚ)) := by
  intro h
  have h3 := h.2.2
  rw [show c6wState.started_at.getD 0 = 1 from rfl,
    show c6wState.timeout_sec.getD 1800 = 1800 from rfl] at h3
  norm_num at h3

/-- Witness for C6 at concrete inputs: a `{status, summary}` dict goes to
review; a non-dict resume value fails the run and routes to END. -/
theorem claim_C6_witness :
    (∃ u, build_node c1contract 2 c6wState (.obj c6wKvs) = .ok u
      ∧ u.builder_output.isSome = true ∧ u.error = none ∧ u.final_status = none
      ∧ (c6wState.error = none → c6wState.final_status = none →
          route_after_build (applyUpdate c6wState u) = "review"))
    ∧ (∃ u, build_node c1contract 2 c6wState (.str "gibberish") = .ok u
      ∧ u.final_status = some "failed" ∧ u.error.isSome = true
      ∧ route_after_build (applyUpdate c6wState u) = "end") :=
  ⟨claim_C6.1 c1contract 2 c6wState c6wKvs c6wNoTimeout rfl rfl rfl rfl,
    claim_C6.2 c1contract 2 c6wState (.str "gibberish") c6wNoTimeout (Or.inl rfl)⟩

-- ── C2 ────────────────────────────────────────────────────

/-- C2: per reviewer rejection, `decide_node` increments `retry_count` by
exactly 1; with budget `b`, the rejection whose incremented count exceeds
`b` (i.e. first reaches `b + 1`) yields `error = BUDGET_EXHAUSTED`,
`final_status = escalated`, stored `retry_count = b + 1`, and routing to
END; a rejection whose incremented count is still `≤ b` records only the
new count and (from a live state) routes back to `plan` for a retry. -/
theorem claim_C2 (s : WorkflowState)
    (hrej : dgetD (s.reviewer_output.getD []) "decision" (.str "reject")
      = .str "reject") :
    (decide_node s).retry_count = some (s.retry_count.getD 0 + 1)
    ∧ (s.retry_count.getD 0 + 1 > s.retry_budget.getD 2 →
        (decide_node s).error = some "BUDGET_EXHAUSTED"
        ∧ (decide_node s).final_status = some "escalated"
        ∧ route_decision (applyUpdate s (decide_node s)) = "end")
    ∧ (s.retry_count.getD 0 + 1 ≤ s.retry_budget.getD 2 →
        (decide_node s).error = none ∧ (decide_node s).final_status = none
        ∧ (s.error = none → s.final_status = none →
            route_decision (applyUpdate s (decide_node s)) = "retry")) := by
  have hdn : decide_node s =
      (if s.retry_count.getD 0 + 1 > s.retry_budget.getD 2 then
        { error := some "BUDGET_EXHAUSTED"
          retry_count := some (s.retry_count.getD 0 + 1)
          final_status := some "escalated"
          conversation := [[( "role", .str "orchestrator"), ( "action", .str "escalated"),
            ( "reason", .str "budget exhausted")]] }
      else
        { retry_count := some (s.retry_count.getD 0 + 1)
          conversation := [[( "role", .str "orchestrator"), ( "action", .str "retry"),
            ( "feedback", dgetD (s.reviewer_output.getD []) "feedback" (.str ""))]] }) := by
    simp [decide_node, hrej, JValue.eqStr]
  by_cases hb : s.retry_count.getD 0 + 1 > s.retry_budget.getD 2
  · rw [hdn, if_pos hb]
    refine ⟨rfl, fun _ => ⟨rfl, rfl, ?_⟩, fun hle => absurd hle (by omega)⟩
    simp [route_decision, applyUpdate, strTruthy]
  · rw [hdn, if_neg hb]
    refine ⟨rfl, fun hgt => absurd hgt hb, fun _ => ⟨rfl, rfl, ?_⟩⟩
    intro he hf
    simp [route_decision, applyUpdate, strTruthy, he, hf]

/-- The witness state for the escalation side of C2
(`retry_count = 2 = retry_budget`, then one more rejection). -/
def c2escState : WorkflowState :=
  { task_id := "task-c2-esc"
    retry_count := some 2
    retry_budget := some 2
    reviewer_output := some [( "decision", .str "reject"), ( "feedback", .str "fix it")] }

/-- The witness state for the retry side of C2 (`retry_count = 0`). -/
def c2retryState : WorkflowState :=
  { task_id := "task-c2-re"
    retry_count := some 0
    retry_budget := some 2
    reviewer_output := some [( "decision", .str "reject"), ( "feedback", .str "fix it")] }

/-- Witness for C2: with budget 2, the rejection at pre-rejection count 2
escalates with `BUDGET_EXHAUSTED` and stored count 3 and routes to END; the
rejection at pre-rejection count 0 stores count 1 and routes to retry. -/
theorem claim_C2_witness :
    ((decide_node c2escState).retry_count = some 3
      ∧ (decide_node c2escState).error = some "BUDGET_EXHAUSTED"
      ∧ (decide_node c2escState).final_status = some "escalated"
      ∧ route_decision (applyUpdate c2escState (decide_node c2escState)) = "end")
    ∧ ((decide_node c2retryState).retry_count = some 1
      ∧ (decide_node c2retryState).error = none
      ∧ route_decision (applyUpdate c2retryState (decide_node c2retryState)) = "retry") := by
  have h1 := claim_C2 c2escState rfl
  have h2 := claim_C2 c2retryState rfl
  have h1b := h1.2.1 (by decide)
  have h2b := h2.2.2 (by decide)
  exact ⟨⟨h1.1, h1b.1, h1b.2.1, h1b.2.2⟩, ⟨h2.1, h2b.1, h2b.2.2 rfl rfl⟩⟩

-- ── C7 ────────────────────────────────────────────────────

/-- Members of `eligible` with an exclusion list were not excluded. -/
theorem mem_eligible_not_excluded {agents : List AgentProfile}
    {contract : SkillContract} {caps exclude : List String} {c : AgentProfile}
    (h : c ∈ eligible agents contract caps exclude) :
    exclude.contains c.id = false := by
  unfold eligible sortByKeyDesc at h
  rw [List.mem_mergeSort] at h
  rw [List.mem_filter] at h
  have hp := h.2
  simp only [Bool.and_eq_true, Bool.not_eq_true'] at hp
  exact hp.1.1

/-- C7: `resolve_reviewer` never returns the builder id — every id it
returns differs from `builder_id` (explicit path, registry-default path,
capability path and last-resort path all exclude the builder) — and an
explicit reviewer override equal to the (nonempty) builder id raises the
configuration error rather than returning. -/
theorem claim_C7 :
    (∀ (agents : List AgentProfile) (contract : SkillContract)
        (builder_id : String) (defaults : RegistryDefaults)
        (explicit : Option String) (r : String),
      resolve_reviewer agents contract builder_id defaults explicit = .ok r →
      r ≠ builder_id)
    ∧ (∀ (agents : List AgentProfile) (contract : SkillContract)
        (builder_id : String) (defaults : RegistryDefaults),
      builder_id ≠ "" →
      resolve_reviewer agents contract builder_id defaults (some builder_id)
        = .error (sameReviewerMsg builder_id)) := by
  constructor
  · intro agents contract builder_id defaults explicit r h
    unfold resolve_reviewer at h
    by_cases h1 : strTruthy explicit = true
    · rw [if_pos h1] at h
      by_cases h2 : explicit.getD "" = builder_id
      · rw [if_pos h2] at h
        exact absurd h (by simp)
      · rw [if_neg h2] at h
        injection h with h
        subst h
        exact h2
    · rw [if_neg h1] at h
      by_cases h2 : (strTruthy defaults.reviewer
          && decide (defaults.reviewer.getD "" ≠ builder_id)) = true
      · rw [if_pos h2] at h
        injection h with h
        subst h
        simp only [Bool.and_eq_true, decide_eq_true_eq] at h2
        exact h2.2
      · rw [if_neg h2] at h
        cases he : eligible agents contract [ "review"] [builder_id] with
        | cons c rest =>
            rw [he] at h
            injection h with h
            subst h
            have hm : c ∈ eligible agents contract [ "review"] [builder_id] := by
              rw [he]
              exact List.mem_cons_self c rest
            have hx := mem_eligible_not_excluded hm
            simp only [List.contains_cons, List.contains_nil, Bool.or_false,
              beq_eq_false_iff_ne] at hx
            exact fun hid => hx (hid ▸ rfl)
        | nil =>
            rw [he] at h
            cases hf : agents.filter (fun a => a.id ≠ builder_id) with
            | cons o rest =>
                rw [hf] at h
                injection h with h
                subst h
                have hm : o ∈ agents.filter (fun a => a.id ≠ builder_id) := by
                  rw [hf]
                  exact List.mem_cons_self o rest
                rw [List.mem_filter] at hm
                simpa using hm.2
            | nil =>
                rw [hf] at h
                exact absurd h (by simp)
  · intro agents contract builder_id defaults hne
    unfold resolve_reviewer
    rw [if_pos (show strTruthy (some builder_id) = true by simp [strTruthy, hne])]
    rw [if_pos (show (some builder_id).getD "" = builder_id from rfl)]

/-- Witness for C7: an explicit reviewer distinct from the builder is
returned and differs from the builder; an explicit reviewer equal to the
builder raises the configuration error. -/
theorem claim_C7_witness :
    resolve_reviewer [] c1contract "windsurf" {} (some "cursor") = .ok "cursor"
    ∧ ( "cursor" : String) ≠ "windsurf"
    ∧ resolve_reviewer [] c1contract "windsurf" {} (some "windsurf")
      = .error (sameReviewerMsg "windsurf") :=
  ⟨rfl, claim_C7.1 [] c1contract "windsurf" {} (some "cursor") "cursor" rfl,
    claim_C7.2 [] c1contract "windsurf" {} (by decide)⟩

-- ── C8 ────────────────────────────────────────────────────

/-- On any state whose (merged) reviewer output carries decision `reject`,
`decide_node` takes the reject branch: it never reports `approved` and it
increments the retry count. -/
theorem decide_reject_shape (s : WorkflowState)
    (hro : dgetD (s.reviewer_output.getD []) "decision" (.str "reject")
      = .str "reject") :
    (decide_node s).final_status ≠ some "approved"
    ∧ (decide_node s).retry_count = some (s.retry_count.getD 0 + 1) := by
  by_cases hb : s.retry_count.getD 0 + 1 > s.retry_budget.getD 2 <;>
    simp [decide_node, hro, JValue.eqStr, hb]

/-- C8: resuming the review node with a non-structured (non-dict) value
records the synthesized automatic-reject reviewer output, and the
subsequent decide node therefore takes the reject branch — it never
produces `final_status = approved` for that result (it increments the
retry count instead). -/
theorem claim_C8 (s : WorkflowState) (result : JValue)
    (h : result.isObj = false) :
    review_node result =
      { reviewer_output := some [( "decision", .str "reject"),
          ( "feedback", .str "Invalid reviewer output")]
        conversation := [[( "role", .str "reviewer"), ( "decision", .str "reject")]] }
    ∧ (decide_node (applyUpdate s (review_node result))).final_status
        ≠ some "approved"
    ∧ (decide_node (applyUpdate s (review_node result))).retry_count
        = some (s.retry_count.getD 0 + 1) := by
  cases result <;> simp [JValue.isObj] at h <;>
    refine ⟨rfl, (decide_reject_shape _ ?_).1, (decide_reject_shape _ ?_).2⟩ <;> rfl

/-- Witness for C8 at the concrete non-dict reviewer result `"oops"`. -/
theorem claim_C8_witness :
    (JValue.str "oops").isObj = false
    ∧ review_node (.str "oops") =
      { reviewer_output := some [( "decision", .str "reject"),
          ( "feedback", .str "Invalid reviewer output")]
        conversation := [[( "role", .str "reviewer"), ( "decision", .str "reject")]] }
    ∧ (decide_node (applyUpdate ({} : WorkflowState)
        (review_node (.str "oops")))).final_status ≠ some "approved" :=
  ⟨rfl, (claim_C8 ({} : WorkflowState) (.str "oops") rfl).1,
    (claim_C8 ({} : WorkflowState) (.str "oops") rfl).2.1⟩

-- ── C9 ────────────────────────────────────────────────────

/-- Splitting a list by a predicate partitions its length. -/
theorem length_filter_split {α : Type} (p : α → Bool) (l : List α) :
    (l.filter p).length + (l.filter (fun a => !(p a))).length = l.length := by
  induction l with
  | nil => rfl
  | cons a t ih => by_cases hpa : p a <;> simp [List.filter, hpa] <;> omega

/-- Membership in `pySortedSet` is membership in the original list. -/
theorem mem_pySortedSet (f : String) (xs : List String) :
    f ∈ pySortedSet xs ↔ f ∈ xs := by
  unfold pySortedSet
  rw [List.mem_mergeSort, List.mem_dedup]

/-- C9: `aggregate_results` reports the total count of sub-tasks, a
completed count equal to the number of results whose status is `approved`
or `completed`, the failed ids (all other statuses, in order), the summed
retry counts, and the deduplicated union of all changed files; on
`[{id: a, status: approved}, {id: b, status: failed}]` it yields
`final_status = failed`, `failed = [b]`, `completed = 1`. -/
theorem claim_C9 :
    (∀ (pid : String) (srs : List SubResult),
      (aggregate_results pid srs).total_sub_tasks = srs.length
      ∧ (aggregate_results pid srs).completed
          = ((srs.filter subResultOk).length : Int)
      ∧ (aggregate_results pid srs).failed
          = (srs.filter (fun sr => !(subResultOk sr))).map
              (fun sr => sr.sub_id.getD "?")
      ∧ (aggregate_results pid srs).total_retries
          = (srs.map (fun sr => sr.retry_count.getD 0)).sum
      ∧ (∀ f, f ∈ (aggregate_results pid srs).all_changed_files
          ↔ ∃ sr ∈ srs, f ∈ sr.changed_files)
      ∧ (aggregate_results pid srs).all_changed_files.Nodup)
    ∧ (aggregate_results "parent"
        [ { sub_id := some "a", status := some "approved" },
          { sub_id := some "b", status := some "failed" } ]).final_status = "failed"
    ∧ (aggregate_results "parent"
        [ { sub_id := some "a", status := some "approved" },
          { sub_id := some "b", status := some "failed" } ]).failed = [ "b"]
    ∧ (aggregate_results "parent"
        [ { sub_id := some "a", status := some "approved" },
          { sub_id := some "b", status := some "failed" } ]).completed = 1 := by
  refine ⟨fun pid srs => ⟨rfl, ?_, rfl, rfl, ?_, ?_⟩, rfl, rfl, rfl⟩
  · show (srs.length : Int)
        - (((srs.filter (fun sr => !(subResultOk sr))).map
            (fun sr => sr.sub_id.getD "?")).length : Int)
      = ((srs.filter subResultOk).length : Int)
    rw [List.length_map]
    have h := length_filter_split subResultOk srs
    omega
  · intro f
    show f ∈ pySortedSet (srs.flatMap (fun sr => sr.changed_files)) ↔ _
    rw [mem_pySortedSet, List.mem_flatMap]
  · show (pySortedSet (srs.flatMap (fun sr => sr.changed_files))).Nodup
    exact ((List.mergeSort_perm _ _).symm).nodup
      (List.nodup_dedup (srs.flatMap (fun sr => sr.changed_files)))

/-- Witness for C9 instantiating the general rollup properties at the
concrete two-result input. -/
theorem claim_C9_witness :
    (aggregate_results "parent"
      [ { sub_id := some "a", status := some "approved" },
        { sub_id := some "b", status := some "failed" } ]).total_sub_tasks = 2
    ∧ (aggregate_results "parent"
      [ { sub_id := some "a", status := some "approved" },
        { sub_id := some "b", status := some "failed" } ]).total_retries = 0 := by
  have h := claim_C9.1 "parent"
    [ { sub_id := some "a", status := some "approved" },
      { sub_id := some "b", status := some "failed" } ]
  exact ⟨h.1, h.2.2.2.1⟩

-- ── C10 ───────────────────────────────────────────────────

/-- C10: every node update carries at least one new conversation entry on
every returning branch, and the LangGraph merge concatenates conversation
lists, so the conversation log strictly grows by at least one entry per
executed node and previously appended entries are never removed or
reordered. -/
theorem claim_C10 :
    (∀ (contract : SkillContract) (agents : List AgentProfile)
        (defaults : RegistryDefaults) (now : ℚ) (s : WorkflowState)
        (u : StateUpdate),
      plan_node contract agents defaults now s = .ok u →
      1 ≤ u.conversation.length)
    ∧ (∀ (contract : SkillContract) (now : ℚ) (s : WorkflowState)
        (result : JValue) (u : StateUpdate),
      build_node contract now s result = .ok u →
      1 ≤ u.conversation.length)
    ∧ (∀ result : JValue, 1 ≤ (review_node result).conversation.length)
    ∧ (∀ s : WorkflowState, 1 ≤ (decide_node s).conversation.length)
    ∧ (∀ (s : WorkflowState) (u : StateUpdate),
      (applyUpdate s u).conversation = s.conversation ++ u.conversation) := by
  refine ⟨?_, ?_, ?_, ?_, fun s u => rfl⟩
  · intro contract agents defaults now s u h
    simp only [plan_node, bind, Except.bind] at h
    split at h
    · simp at h
    · split at h
      · injection h with h
        subst h
        simp [planUpdate]
      · simp at h
  · intro contract now s result u h
    simp only [build_node] at h
    repeat' split at h
    all_goals
      first
        | exact Except.noConfusion h
        | (injection h with h; subst h;
            simp [timeoutUpdate, builderInvalidUpdate])
  · intro result
    cases result <;> simp [review_node]
  · intro s
    simp only [decide_node]
    split
    · simp
    · split <;> simp

/-- Registry defaults for the C10 witness. -/
def w10Defaults : RegistryDefaults :=
  { builder := some "windsurf", reviewer := some "cursor" }

/-- Fresh run state for the C10 witness. -/
def w10State : WorkflowState :=
  { task_id := "task-c10-w", skill_id := "code-implement" }

/-- Witness for C10 at concrete node executions: `plan` resolving from
registry defaults, `build` on an invalid (non-dict) resume value, `review`
on a non-dict result, `decide` with no reviewer output, and the append-only
merge. -/
theorem claim_C10_witness :
    plan_node c1contract [] w10Defaults 5 w10State
      = .ok (planUpdate "windsurf" "cursor" 5)
    ∧ 1 ≤ (planUpdate "windsurf" "cursor" 5).conversation.length
    ∧ build_node c1contract 100 c1state (.str "nonsense")
      = .ok (builderInvalidUpdate [ "output must be a JSON object"])
    ∧ 1 ≤ (builderInvalidUpdate [ "output must be a JSON object"]).conversation.length
    ∧ 1 ≤ (review_node (.str "nonsense")).conversation.length
    ∧ 1 ≤ (decide_node w10State).conversation.length
    ∧ (applyUpdate w10State (planUpdate "windsurf" "cursor" 5)).conversation
      = w10State.conversation ++ (planUpdate "windsurf" "cursor" 5).conversation :=
  ⟨rfl, claim_C10.1 c1contract [] w10Defaults 5 w10State _ rfl,
    rfl, claim_C10.2.1 c1contract 100 c1state (.str "nonsense") _ rfl,
    claim_C10.2.2.1 (.str "nonsense"), claim_C10.2.2.2.1 w10State,
    claim_C10.2.2.2.2 w10State (planUpdate "windsurf" "cursor" 5)⟩

end AgentOrchestra
